import Mathlib

/-!
Shallow embedding of `src/src/index.ts` (AzBlobTrigger): a retrying HTTP
relay for Azure blob-created events.  The delivery engine `postWithRetry`
is modelled as a fuel-indexed loop over an abstract per-attempt network
outcome function; the fuel equals `MAX_RETRIES + 1 - attempt`, the exact
number of loop iterations the `while (attempt <= MAX_RETRIES)` loop can
still run, so fuel exhaustion coincides with the loop-exit check
(`return lastResp!`, line 119, the unreachable fallthrough).
JS strings in the extraction helper are modelled as `List Char`.
-/

namespace AzBlob

/-- Outcome of one `fetch` attempt, as observed by the loop body of
`postWithRetry`: either an HTTP response with its status code, or a
transport failure (timeout abort / connection error) carrying the
`reason` string computed at line 103. -/
inductive AttemptOutcome where
  | resp (status : Nat)
  | err (reason : String)
deriving DecidableEq

/-- The retry configuration read from the environment at lines 11-20:
`MAX_RETRIES`, `RETRY_BASE_MS`, and the set `RETRY_STATUSES`
(modelled as a list with decidable membership). -/
structure RetryPolicy where
  maxRetries : Nat
  retryBaseMs : Nat
  retryStatuses : List Nat
deriving DecidableEq

/-- Default value of `RETRY_STATUS_CODES` (line 16): "408,429,500,502,503,504". -/
def RETRY_STATUSES : List Nat := [408, 429, 500, 502, 503, 504]

/-- `Response.ok` of the fetch API: status in the range 200-299 (line 86). -/
def respOk (status : Nat) : Bool := decide (200 ≤ status) && decide (status < 300)

/-- The message of the error thrown at line 114:
"Downstream request failed after (MAX_RETRIES) retries: (reason)". -/
def throwMsg (maxRetries : Nat) (reason : String) : String :=
  "Downstream request failed after " ++ toString maxRetries ++ " retries: " ++ reason

deriving instance DecidableEq for Except

/-- Result of one call to `postWithRetry`, instrumented for the proofs:
`result` is the returned status (`Except.ok`) or the thrown error message
(`Except.error`); `attemptsMade` counts the `fetch` calls issued;
`delays` records each scheduled backoff as (attempt index, delay ms). -/
structure EngineResult where
  result : Except String Nat
  attemptsMade : Nat
  delays : List (Nat × Nat)
deriving DecidableEq

/-- The loop body of `postWithRetry` (lines 73-116).  `outcomes a` is the
network's answer to attempt number `a`; `jitter a` models
`Math.floor(Math.random() * 150)` (a value in [0,149]) drawn at attempt `a`.
`fuel = p.maxRetries + 1 - attempt` throughout, so the `0` case is the
loop-exit fallthrough `return lastResp!` at line 119 (unreachable; `getD 0`
stands for the non-null assertion). -/
def postWithRetryGo (p : RetryPolicy) (outcomes : Nat → AttemptOutcome)
    (jitter : Nat → Nat) : Nat → Option Nat → Nat → EngineResult
  | _, lastResp, 0 =>
    { result := Except.ok (lastResp.getD 0), attemptsMade := 0, delays := [] }
  | attempt, lastResp, fuel + 1 =>
    match outcomes attempt with
    | AttemptOutcome.resp status =>
      if respOk status then
        { result := Except.ok status, attemptsMade := 1, delays := [] }
      else if status ∈ p.retryStatuses ∧ attempt < p.maxRetries then
        let backoff := p.retryBaseMs * 2 ^ attempt + jitter attempt
        let r := postWithRetryGo p outcomes jitter (attempt + 1) (some status) fuel
        { result := r.result, attemptsMade := r.attemptsMade + 1,
          delays := (attempt, backoff) :: r.delays }
      else
        { result := Except.ok status, attemptsMade := 1, delays := [] }
    | AttemptOutcome.err reason =>
      if attempt < p.maxRetries then
        let backoff := p.retryBaseMs * 2 ^ attempt + jitter attempt
        let r := postWithRetryGo p outcomes jitter (attempt + 1) lastResp fuel
        { result := r.result, attemptsMade := r.attemptsMade + 1,
          delays := (attempt, backoff) :: r.delays }
      else
        { result := Except.error (throwMsg p.maxRetries reason),
          attemptsMade := 1, delays := [] }

/-- `postWithRetry` (lines 64-120): run the loop from `attempt = 0`,
`lastResp = undefined`, with its full iteration budget. -/
def postWithRetry (p : RetryPolicy) (outcomes : Nat → AttemptOutcome)
    (jitter : Nat → Nat) : EngineResult :=
  postWithRetryGo p outcomes jitter 0 none (p.maxRetries + 1)

/-- The policy given by the source defaults: `MAX_RETRIES = 3`,
`RETRY_BASE_MS = 400`, default retryable statuses (lines 11-20). -/
def defaultPolicy : RetryPolicy :=
  { maxRetries := 3, retryBaseMs := 400, retryStatuses := RETRY_STATUSES }

/-- The fields of `ctx.triggerMetadata` read by `parseFromContext`
(lines 37 and 47).  JS strings are modelled as `List Char`; a missing
field is `none` (`?? ""` turns it into the empty string). -/
structure TriggerMetadata where
  blobTrigger : Option (List Char)
  uri : Option (List Char)
deriving DecidableEq

/-- The record returned by `parseFromContext` (lines 43, 56, 60). -/
structure ParsedBlob where
  container : List Char
  name : List Char
deriving DecidableEq

/-- `String.prototype.indexOf("/")` (line 40).  JS returns -1 when no
slash occurs; `parseFromContext` only calls it under the
`blobTrigger.includes("/")` guard, so that case is unreachable and this
model returns the length there instead. -/
def indexOfSlash : List Char → Nat
  | [] => 0
  | c :: rest => if c = '/' then 0 else indexOfSlash rest + 1

/-- `String.prototype.split("/")` (line 52): never returns an empty list;
splitting the empty string yields one empty segment. -/
def jsSplitSlash : List Char → List (List Char)
  | [] => [[]]
  | c :: rest =>
    if c = '/' then [] :: jsSplitSlash rest
    else
      match jsSplitSlash rest with
      | [] => [[c]]
      | h :: t => (c :: h) :: t

/-- `Array.prototype.join("/")` (line 55). -/
def joinSlash : List (List Char) → List Char
  | [] => []
  | [x] => x
  | x :: xs => x ++ '/' :: joinSlash xs

/-- Modelled from the spec: the WHATWG `URL` constructor (a platform
builtin, not in `src/`) applied at line 50.  Per the spec the URI has the
form "scheme://host/(account)/(container)/(path...)"; this model locates
the first "://" marker (`none` = the constructor throws, e.g. no scheme
separator) and takes everything from the first "/" after it as the
pathname ("/" when the authority has no path). -/
def splitMarker : List Char → Option (List Char × List Char)
  | [] => none
  | c :: rest =>
    if c = ':' ∧ rest.take 2 = ['/', '/'] then some ([], rest.drop 2)
    else (splitMarker rest).map (fun p => (c :: p.1, p.2))

/-- Modelled from the spec: `new URL(uri).pathname` for an absolute URI
with a "://" authority marker (see `splitMarker`). -/
def urlPathname (uri : List Char) : Option (List Char) :=
  match splitMarker uri with
  | none => none
  | some (_, afterMarker) =>
    let p := afterMarker.dropWhile (fun c => c ≠ '/')
    some (if p = [] then ['/'] else p)

/-- `parseFromContext` (lines 36-61): prefer the combined
`blobTrigger` descriptor when it is non-empty and contains a slash,
splitting at the first slash; otherwise parse the `uri` pathname
(strip leading slashes, split on "/", segment 1 is the container and
segments 2.. joined with "/" are the name); otherwise empty strings.
A `URL` constructor throw (`urlPathname = none`) is swallowed by the
`catch` at line 57 and falls through to the empty result. -/
def parseFromContext (md : TriggerMetadata) : ParsedBlob :=
  let bt := md.blobTrigger.getD []
  if bt ≠ [] ∧ '/' ∈ bt then
    let firstSlash := indexOfSlash bt
    { container := bt.take firstSlash, name := bt.drop (firstSlash + 1) }
  else
    let uri := md.uri.getD []
    if uri ≠ [] then
      match urlPathname uri with
      | some pathname =>
        let parts := jsSplitSlash (pathname.dropWhile (fun c => c = '/'))
        { container := parts.getD 1 [], name := joinSlash (parts.drop 2) }
      | none => { container := [], name := [] }
    else
      { container := [], name := [] }

/-- A JSON-serializable structured value (the shape `JSON.stringify`
accepts without throwing). -/
inductive Json where
  | null
  | bool (b : Bool)
  | num (n : Int)
  | str (s : String)
  | arr (elems : List Json)
  | obj (fields : List (String × Json))

/-- JSON string quoting: wrap in double quotes, escaping backslash and
double quote (the escapes relevant to byte-length fidelity). -/
def quoteJson (s : String) : String :=
  "\"" ++ String.mk (s.toList.flatMap (fun c =>
    if c = '\\' then ['\\', '\\']
    else if c = '"' then ['\\', '"']
    else [c])) ++ "\""

mutual

/-- `JSON.stringify` on a serializable structured value (platform
builtin used at line 28). -/
def stringify : Json → String
  | Json.null => "null"
  | Json.bool true => "true"
  | Json.bool false => "false"
  | Json.num n => toString n
  | Json.str s => quoteJson s
  | Json.arr elems => "[" ++ stringifyArr elems ++ "]"
  | Json.obj fields => "\x7b" ++ stringifyObj fields ++ "\x7d"

/-- Comma-separated serialization of an array's elements. -/
def stringifyArr : List Json → String
  | [] => ""
  | [x] => stringify x
  | x :: xs => stringify x ++ "," ++ stringifyArr xs

/-- Comma-separated serialization of an object's fields. -/
def stringifyObj : List (String × Json) → String
  | [] => ""
  | [kv] => quoteJson kv.1 ++ ":" ++ stringify kv.2
  | kv :: kvs => quoteJson kv.1 ++ ":" ++ stringify kv.2 ++ "," ++ stringifyObj kvs

end

/-- The dynamic `payload: unknown` received by the handler, as a closed
variant: `null` covers both null and undefined (`payload == null`,
line 25); `str` a JS string; `bytes` a `Uint8Array` of the given length;
`json` any other value whose serialization succeeds; `unserializable`
any other value on which `JSON.stringify` throws (circular reference,
BigInt, ...). -/
inductive JsValue where
  | null
  | str (s : String)
  | bytes (len : Nat)
  | json (j : Json)
  | unserializable

/-- `getBlobSize` (lines 24-29).  `Buffer.byteLength` with the default
utf8 encoding is the UTF-8 byte size. -/
def getBlobSize : JsValue → Nat
  | JsValue.null => 0
  | JsValue.str s => s.utf8ByteSize
  | JsValue.bytes len => len
  | JsValue.json j => (stringify j).utf8ByteSize
  | JsValue.unserializable => 0

/-- Configuration of the handler (lines 4-13): the downstream URL and
the fail-on-non-2xx flag, plus the retry policy used by the engine. -/
structure Config where
  downstreamUrl : String
  failOnNon2xx : Bool
  policy : RetryPolicy

/-- The JSON body built at line 143: (Container, Name, Size). -/
structure OutPayload where
  Container : List Char
  Name : List Char
  Size : Nat
deriving DecidableEq

/-- `BlobWatcher` (lines 123-169), with the network abstracted by
`outcomes`/`jitter` as in `postWithRetry`: validate configuration,
extract container/name and size, deliver with retries; rethrow an engine
error (line 158); convert a terminal non-2xx response into an error
exactly when `FAIL_ON_NON_2XX` is set (lines 166-168). -/
def BlobWatcher (cfg : Config) (outcomes : Nat → AttemptOutcome)
    (jitter : Nat → Nat) (md : TriggerMetadata) (blob : JsValue) :
    Except String Unit :=
  if cfg.downstreamUrl = "" then
    Except.error "Missing DOWNSTREAM_FUNCTION_URL"
  else
    let parsed := parseFromContext md
    let size := getBlobSize blob
    let _payload : OutPayload :=
      { Container := parsed.container, Name := parsed.name, Size := size }
    let r := postWithRetry cfg.policy outcomes jitter
    match r.result with
    | Except.error e => Except.error e
    | Except.ok status =>
      if respOk status = false ∧ cfg.failOnNon2xx = true then
        Except.error ("Downstream call failed with " ++ toString status)
      else
        Except.ok ()

/-- Helper: the loop makes at most `fuel` further attempts. -/
theorem postWithRetryGo_attempts_le (p : RetryPolicy) (o : Nat → AttemptOutcome)
    (j : Nat → Nat) :
    ∀ fuel attempt last, (postWithRetryGo p o j attempt last fuel).attemptsMade ≤ fuel := by
  intro fuel
  induction fuel with
  | zero => intro attempt last; simp [postWithRetryGo]
  | succ n ih =>
    intro attempt last
    simp only [postWithRetryGo]
    cases ho : o attempt with
    | resp status =>
      by_cases h1 : respOk status = true
      · simp [h1]
      · by_cases h2 : status ∈ p.retryStatuses ∧ attempt < p.maxRetries
        · have := ih (attempt + 1) (some status)
          simp only [h1, h2, if_true, if_false]
          simp
          omega
        · simp [h1, h2]
    | err reason =>
      by_cases h1 : attempt < p.maxRetries
      · have := ih (attempt + 1) last
        simp only [h1, if_true]
        simp
        omega
      · simp [h1]

/-- Helper: with positive fuel the loop makes at least one attempt. -/
theorem postWithRetryGo_attempts_pos (p : RetryPolicy) (o : Nat → AttemptOutcome)
    (j : Nat → Nat) :
    ∀ fuel attempt last, 0 < fuel →
      1 ≤ (postWithRetryGo p o j attempt last fuel).attemptsMade := by
  intro fuel
  cases fuel with
  | zero => intro attempt last h; omega
  | succ n =>
    intro attempt last _
    simp only [postWithRetryGo]
    cases ho : o attempt with
    | resp status =>
      by_cases h1 : respOk status = true
      · simp [h1]
      · by_cases h2 : status ∈ p.retryStatuses ∧ attempt < p.maxRetries
        · simp [h1, h2]
        · simp [h1, h2]
    | err reason =>
      by_cases h1 : attempt < p.maxRetries
      · simp [h1]
      · simp [h1]

/-- C1: every call to the delivery engine produces exactly one terminal
outcome (a returned response or a raised error, never both, never
neither), and the number of network attempts lies between 1 and
`maxRetries + 1` inclusive. -/
theorem C1_delivery_invariant (p : RetryPolicy) (o : Nat → AttemptOutcome)
    (j : Nat → Nat) :
    (1 ≤ (postWithRetry p o j).attemptsMade
      ∧ (postWithRetry p o j).attemptsMade ≤ p.maxRetries + 1)
    ∧ ((∃ s, (postWithRetry p o j).result = Except.ok s)
        ↔ ¬ ∃ e, (postWithRetry p o j).result = Except.error e) := by
  refine ⟨⟨postWithRetryGo_attempts_pos p o j (p.maxRetries + 1) 0 none (Nat.succ_pos _),
          postWithRetryGo_attempts_le p o j (p.maxRetries + 1) 0 none⟩, ?_⟩
  cases hres : (postWithRetry p o j).result <;> simp

/-- C2: with `maxRetries = 3` and 500 retryable, four straight 500
responses give exactly 4 attempts and the 500 response is returned as a
normal result, not raised as an error. -/
theorem C2_exhausted_retryable_returns_response (j : Nat → Nat) :
    (postWithRetry defaultPolicy (fun _ => AttemptOutcome.resp 500) j).attemptsMade = 4
    ∧ (postWithRetry defaultPolicy (fun _ => AttemptOutcome.resp 500) j).result
        = Except.ok 500 :=
  ⟨rfl, rfl⟩

/-- Helper: whenever the attempt the loop is on suffers a transport
failure and the retry budget is exhausted (`¬ attempt < maxRetries`),
the loop throws the line-114 error wrapping that failure's reason and
the retry count, after that one attempt, whatever fuel remains. -/
theorem postWithRetryGo_err_exhausted (p : RetryPolicy) (o : Nat → AttemptOutcome)
    (j : Nat → Nat) (a : Nat) (last : Option Nat) (fuel : Nat) (reason : String)
    (ho : o a = AttemptOutcome.err reason) (ha : ¬ a < p.maxRetries)
    (hfuel : 0 < fuel) :
    postWithRetryGo p o j a last fuel
      = { result := Except.error (throwMsg p.maxRetries reason),
          attemptsMade := 1, delays := [] } := by
  cases fuel with
  | zero => omega
  | succ n =>
    simp only [postWithRetryGo]
    rw [ho]
    dsimp only
    rw [if_neg ha]

/-- C3: a transport failure arriving while the attempt counter equals
`maxRetries` makes the engine raise the error wrapping that (last)
failure's reason annotated with the retry count, whatever outcomes came
before and whatever budget the loop state carries; in particular with
`maxRetries = 0` a transport failure on the first attempt gives exactly
1 attempt and the immediately raised terminal error. -/
theorem C3_transport_exhaustion_throws (p : RetryPolicy) (o : Nat → AttemptOutcome)
    (j : Nat → Nat) (a : Nat) (last : Option Nat) (fuel : Nat) (reason : String)
    (ho : o a = AttemptOutcome.err reason) (ha : a = p.maxRetries)
    (hfuel : 0 < fuel) :
    postWithRetryGo p o j a last fuel
        = { result := Except.error (throwMsg p.maxRetries reason),
            attemptsMade := 1, delays := [] }
    ∧ (p.maxRetries = 0 →
        (postWithRetry p o j).result = Except.error (throwMsg p.maxRetries reason)
        ∧ (postWithRetry p o j).attemptsMade = 1) := by
  constructor
  · exact postWithRetryGo_err_exhausted p o j a last fuel reason ho (by omega) hfuel
  · intro h0
    have ha0 : a = 0 := by omega
    have e : postWithRetry p o j = postWithRetryGo p o j 0 none (p.maxRetries + 1) := rfl
    have key := postWithRetryGo_err_exhausted p o j 0 none (p.maxRetries + 1) reason
      (ha0 ▸ ho) (by omega) (Nat.succ_pos _)
    rw [e, key]
    exact ⟨rfl, rfl⟩

/-- Witness for C3: `maxRetries = 0` and a connection failure on the
first attempt — the loop state (attempt 0, fuel 1) throws after that one
attempt, and the whole delivery makes exactly 1 attempt and raises
"Downstream request failed after 0 retries: ECONNREFUSED". -/
theorem C3_witness :
    postWithRetryGo { maxRetries := 0, retryBaseMs := 400, retryStatuses := RETRY_STATUSES }
        (fun _ => AttemptOutcome.err "ECONNREFUSED") (fun _ => 0) 0 none 1
        = { result := Except.error "Downstream request failed after 0 retries: ECONNREFUSED",
            attemptsMade := 1, delays := [] }
    ∧ (postWithRetry { maxRetries := 0, retryBaseMs := 400, retryStatuses := RETRY_STATUSES }
          (fun _ => AttemptOutcome.err "ECONNREFUSED") (fun _ => 0)).result
        = Except.error "Downstream request failed after 0 retries: ECONNREFUSED"
    ∧ (postWithRetry { maxRetries := 0, retryBaseMs := 400, retryStatuses := RETRY_STATUSES }
          (fun _ => AttemptOutcome.err "ECONNREFUSED") (fun _ => 0)).attemptsMade = 1 := by
  have h := C3_transport_exhaustion_throws
    { maxRetries := 0, retryBaseMs := 400, retryStatuses := RETRY_STATUSES }
    (fun _ => AttemptOutcome.err "ECONNREFUSED") (fun _ => 0) 0 none 1 "ECONNREFUSED"
    rfl rfl (by decide)
  exact ⟨h.1, (h.2 rfl).1, (h.2 rfl).2⟩

/-- The response sequence [503, 503, 503, 200] of the spec's test
property: attempts 0-2 answer 503, later attempts answer 200. -/
def seq503Then200 : Nat → AttemptOutcome :=
  fun a => if a < 3 then AttemptOutcome.resp 503 else AttemptOutcome.resp 200

/-- C4: with `maxRetries = 3` the sequence [503, 503, 503, 200] makes
exactly 4 attempts and returns the 200 response; and whenever the attempt
the loop is on receives any 2xx response, the engine returns it
immediately with no further attempts, whatever fuel (retry budget)
remains. -/
theorem C4_retry_then_success (j : Nat → Nat) (p : RetryPolicy)
    (o : Nat → AttemptOutcome) (jAny : Nat → Nat) (a : Nat) (last : Option Nat)
    (fuel : Nat) (s : Nat) (ho : o a = AttemptOutcome.resp s)
    (hok : respOk s = true) (hfuel : 0 < fuel) :
    ((postWithRetry defaultPolicy seq503Then200 j).attemptsMade = 4
      ∧ (postWithRetry defaultPolicy seq503Then200 j).result = Except.ok 200)
    ∧ postWithRetryGo p o jAny a last fuel
        = { result := Except.ok s, attemptsMade := 1, delays := [] } := by
  refine ⟨⟨rfl, rfl⟩, ?_⟩
  cases fuel with
  | zero => omega
  | succ n => simp [postWithRetryGo, ho, hok]

/-- Witness for C4: a 204 response arriving on the very last attempt
(fuel 1, zero budget left) is still returned immediately as success. -/
theorem C4_witness :
    ((postWithRetry defaultPolicy seq503Then200 (fun _ => 0)).attemptsMade = 4
      ∧ (postWithRetry defaultPolicy seq503Then200 (fun _ => 0)).result = Except.ok 200)
    ∧ postWithRetryGo defaultPolicy (fun _ => AttemptOutcome.resp 204) (fun _ => 0) 3 none 1
        = { result := Except.ok 204, attemptsMade := 1, delays := [] } :=
  C4_retry_then_success (fun _ => 0) defaultPolicy (fun _ => AttemptOutcome.resp 204)
    (fun _ => 0) 3 none 1 204 rfl (by decide) (by decide)

/-- C5: a 404 (not retryable) on the first attempt ends the delivery at
exactly 1 attempt, returning the 404 response, with the full
`maxRetries = 3` budget remaining. -/
theorem C5_nonretryable_first_attempt (o : Nat → AttemptOutcome) (j : Nat → Nat)
    (h : o 0 = AttemptOutcome.resp 404) :
    (postWithRetry defaultPolicy o j).attemptsMade = 1
    ∧ (postWithRetry defaultPolicy o j).result = Except.ok 404 := by
  have key : postWithRetry defaultPolicy o j
      = { result := Except.ok 404, attemptsMade := 1, delays := [] } := by
    show postWithRetryGo defaultPolicy o j 0 none (Nat.succ 3) = _
    simp [postWithRetryGo, h, respOk, defaultPolicy, RETRY_STATUSES]
  rw [key]
  exact ⟨rfl, rfl⟩

/-- Witness for C5: the constant-404 downstream gives 1 attempt and a
returned 404. -/
theorem C5_witness :
    (postWithRetry defaultPolicy (fun _ => AttemptOutcome.resp 404) (fun _ => 0)).attemptsMade = 1
    ∧ (postWithRetry defaultPolicy (fun _ => AttemptOutcome.resp 404) (fun _ => 0)).result
        = Except.ok 404 :=
  C5_nonretryable_first_attempt (fun _ => AttemptOutcome.resp 404) (fun _ => 0) rfl

/-- Helper: every scheduled backoff recorded by the loop is exactly
`retryBaseMs * 2 ^ a + jitter a` for its attempt index `a` (lines 90
and 106). -/
theorem postWithRetryGo_delays_eq (p : RetryPolicy) (o : Nat → AttemptOutcome)
    (j : Nat → Nat) :
    ∀ fuel attempt last, ∀ x ∈ (postWithRetryGo p o j attempt last fuel).delays,
      x.2 = p.retryBaseMs * 2 ^ x.1 + j x.1 := by
  intro fuel
  induction fuel with
  | zero => intro attempt last x hx; simp [postWithRetryGo] at hx
  | succ n ih =>
    intro attempt last x hx
    simp only [postWithRetryGo] at hx
    cases ho : o attempt with
    | resp status =>
      rw [ho] at hx
      dsimp only at hx
      by_cases h1 : respOk status = true
      · simp [h1] at hx
      · by_cases h2 : status ∈ p.retryStatuses ∧ attempt < p.maxRetries
        · rw [if_neg h1, if_pos h2] at hx
          simp only [List.mem_cons] at hx
          rcases hx with hx | hx
          · subst hx; rfl
          · exact ih (attempt + 1) (some status) x hx
        · simp [h1, h2] at hx
    | err reason =>
      rw [ho] at hx
      dsimp only at hx
      by_cases h1 : attempt < p.maxRetries
      · rw [if_pos h1] at hx
        simp only [List.mem_cons] at hx
        rcases hx with hx | hx
        · subst hx; rfl
        · exact ih (attempt + 1) last x hx
      · simp [h1] at hx

/-- C6: every backoff delay scheduled at attempt index `a` lies in the
interval [backoffBase * 2^a, backoffBase * 2^a + 150]; the jitter
(`Math.floor(Math.random() * 150)`, a value below 150) is additive and
bounded, so the delay is never below the deterministic exponential term. -/
theorem C6_backoff_bounds (p : RetryPolicy) (o : Nat → AttemptOutcome)
    (j : Nat → Nat) (hj : ∀ a, j a < 150) (x : Nat × Nat)
    (hx : x ∈ (postWithRetry p o j).delays) :
    p.retryBaseMs * 2 ^ x.1 ≤ x.2 ∧ x.2 ≤ p.retryBaseMs * 2 ^ x.1 + 150 := by
  have hEq := postWithRetryGo_delays_eq p o j (p.maxRetries + 1) 0 none x hx
  have hb := hj x.1
  omega

/-- Witness for C6: default policy, constant 500 responses, jitter 100;
the first scheduled delay is (attempt 0, 500ms), within [400, 550]. -/
theorem C6_witness :
    defaultPolicy.retryBaseMs * 2 ^ 0 ≤ 500
    ∧ 500 ≤ defaultPolicy.retryBaseMs * 2 ^ 0 + 150 :=
  C6_backoff_bounds defaultPolicy (fun _ => AttemptOutcome.resp 500) (fun _ => 100)
    (fun _ => (by decide : (100 : Nat) < 150)) (0, 500) (by decide)

/-- Helper: the first slash of a slash-free part followed by "/" sits at
the part's length. -/
theorem indexOfSlash_append (c rest : List Char) (h : '/' ∉ c) :
    indexOfSlash (c ++ '/' :: rest) = c.length := by
  induction c with
  | nil => simp [indexOfSlash]
  | cons x xs ih =>
    have hx : x ≠ '/' := by rintro rfl; exact h (List.mem_cons_self _ _)
    have hxs : '/' ∉ xs := fun hm => h (List.mem_cons_of_mem x hm)
    simp [indexOfSlash, hx, ih hxs]

/-- Helper: taking the length of the left part of an append yields it. -/
theorem take_len_append (c d : List Char) : (c ++ d).take c.length = c := by
  induction c with
  | nil => simp
  | cons x xs ih => simp [ih]

/-- Helper: dropping past a slash-separator leaves the remainder. -/
theorem drop_len_succ_append (c rest : List Char) :
    (c ++ '/' :: rest).drop (c.length + 1) = rest := by
  induction c with
  | nil => simp
  | cons x xs ih => simp [ih]

/-- Helper: splitting at a separator whose segment is slash-free peels
off that segment. -/
theorem jsSplitSlash_append (seg rest : List Char) (h : '/' ∉ seg) :
    jsSplitSlash (seg ++ '/' :: rest) = seg :: jsSplitSlash rest := by
  induction seg with
  | nil => simp [jsSplitSlash]
  | cons x xs ih =>
    have hx : x ≠ '/' := by rintro rfl; exact h (List.mem_cons_self _ _)
    have hxs : '/' ∉ xs := fun hm => h (List.mem_cons_of_mem x hm)
    simp [jsSplitSlash, hx, ih hxs]

/-- Helper: a slash-free string splits into a single segment. -/
theorem jsSplitSlash_no_slash (seg : List Char) (h : '/' ∉ seg) :
    jsSplitSlash seg = [seg] := by
  induction seg with
  | nil => simp [jsSplitSlash]
  | cons x xs ih =>
    have hx : x ≠ '/' := by rintro rfl; exact h (List.mem_cons_self _ _)
    have hxs : '/' ∉ xs := fun hm => h (List.mem_cons_of_mem x hm)
    simp [jsSplitSlash, hx, ih hxs]

/-- Helper: the "://" marker is found right after a colon-free scheme. -/
theorem splitMarker_append (s t : List Char) (h : ':' ∉ s) :
    splitMarker (s ++ ':' :: '/' :: '/' :: t) = some (s, t) := by
  induction s with
  | nil => simp [splitMarker]
  | cons x xs ih =>
    have hx : x ≠ ':' := by rintro rfl; exact h (List.mem_cons_self _ _)
    have hxs : ':' ∉ xs := fun hm => h (List.mem_cons_of_mem x hm)
    simp [splitMarker, hx, ih hxs]

/-- Helper: scanning a slash-free host stops at the first path slash. -/
theorem dropWhile_until_slash (hst rest : List Char) (h : '/' ∉ hst) :
    (hst ++ '/' :: rest).dropWhile (fun c => c ≠ '/') = '/' :: rest := by
  induction hst with
  | nil => simp [List.dropWhile]
  | cons x xs ih =>
    have hx : x ≠ '/' := by rintro rfl; exact h (List.mem_cons_self _ _)
    have hxs : '/' ∉ xs := fun hm => h (List.mem_cons_of_mem x hm)
    have hpx : ((fun c => decide (c ≠ '/')) x) = true := by simpa using hx
    rw [List.cons_append, List.dropWhile_cons, if_pos hpx]
    exact ih hxs

/-- Helper: the pathname of "scheme://host/path" is "/path" for a
colon-free scheme and slash-free host. -/
theorem urlPathname_eq (scheme hst path : List Char)
    (hs : ':' ∉ scheme) (hh : '/' ∉ hst) :
    urlPathname (scheme ++ ':' :: '/' :: '/' :: (hst ++ '/' :: path))
      = some ('/' :: path) := by
  unfold urlPathname
  rw [splitMarker_append scheme (hst ++ '/' :: path) hs]
  dsimp only
  rw [dropWhile_until_slash hst path hh]
  simp

/-- Helper: stripping leading slashes from "/" followed by a non-empty
slash-free-headed tail removes exactly that one slash. -/
theorem dropWhile_slash_head (l rest : List Char) (hne : l ≠ []) (h : '/' ∉ l) :
    ('/' :: (l ++ rest)).dropWhile (fun c => c = '/') = l ++ rest := by
  cases l with
  | nil => exact absurd rfl hne
  | cons a as =>
    have ha : a ≠ '/' := by rintro rfl; exact h (List.mem_cons_self _ _)
    simp [List.dropWhile, ha]

/-- Helper: the combined descriptor is split at its first slash. -/
theorem parseFromContext_blobTrigger (c rest : List Char) (u : Option (List Char))
    (h : '/' ∉ c) :
    parseFromContext { blobTrigger := some (c ++ '/' :: rest), uri := u }
      = { container := c, name := rest } := by
  have hne : c ++ '/' :: rest ≠ [] := by simp
  have hmem : '/' ∈ c ++ '/' :: rest := by simp
  simp only [parseFromContext, Option.getD_some]
  rw [if_pos ⟨hne, hmem⟩, indexOfSlash_append c rest h]
  rw [take_len_append c ('/' :: rest), drop_len_succ_append c rest]

/-- Helper: with no usable descriptor, extraction takes the second URI
path segment as container and joins the remaining segments as name. -/
theorem parseFromContext_uri (scheme hst account cont p1 p2 : List Char)
    (hs : ':' ∉ scheme) (hh : '/' ∉ hst) (haNe : account ≠ [])
    (ha : '/' ∉ account) (hc : '/' ∉ cont) (h1 : '/' ∉ p1) (h2 : '/' ∉ p2) :
    parseFromContext
        { blobTrigger := none,
          uri := some (scheme ++ ':' :: '/' :: '/' :: (hst ++ '/' ::
                        (account ++ '/' :: (cont ++ '/' :: (p1 ++ '/' :: p2))))) }
      = { container := cont, name := p1 ++ '/' :: p2 } := by
  have huriNe : scheme ++ ':' :: '/' :: '/' :: (hst ++ '/' ::
      (account ++ '/' :: (cont ++ '/' :: (p1 ++ '/' :: p2)))) ≠ [] := by simp
  simp only [parseFromContext, Option.getD_some, Option.getD_none]
  rw [if_neg (show ¬(([] : List Char) ≠ [] ∧ '/' ∈ ([] : List Char)) by simp),
    if_pos huriNe,
    urlPathname_eq scheme hst (account ++ '/' :: (cont ++ '/' :: (p1 ++ '/' :: p2))) hs hh]
  dsimp only
  rw [dropWhile_slash_head account ('/' :: (cont ++ '/' :: (p1 ++ '/' :: p2))) haNe ha,
    jsSplitSlash_append account _ ha, jsSplitSlash_append cont _ hc,
    jsSplitSlash_append p1 _ h1, jsSplitSlash_no_slash p2 h2]
  rfl

/-- C7: extraction prefers the combined descriptor, splitting at the
first slash into container and full remaining path ("a/b/c" gives
container "a", name "b/c"); otherwise it parses the URI pathname, taking
the second segment as container and the later segments joined with "/"
as name; with neither present, both are empty and nothing is raised. -/
theorem C7_extraction_contract :
    (∀ (c rest : List Char) (u : Option (List Char)), '/' ∉ c →
        parseFromContext { blobTrigger := some (c ++ '/' :: rest), uri := u }
          = { container := c, name := rest })
    ∧ (∀ scheme hst account cont p1 p2 : List Char,
        ':' ∉ scheme → '/' ∉ hst → account ≠ [] → '/' ∉ account →
        '/' ∉ cont → '/' ∉ p1 → '/' ∉ p2 →
        parseFromContext
            { blobTrigger := none,
              uri := some (scheme ++ ':' :: '/' :: '/' :: (hst ++ '/' ::
                            (account ++ '/' :: (cont ++ '/' :: (p1 ++ '/' :: p2))))) }
          = { container := cont, name := p1 ++ '/' :: p2 })
    ∧ parseFromContext { blobTrigger := none, uri := none }
        = { container := [], name := [] } :=
  ⟨fun c rest u h => parseFromContext_blobTrigger c rest u h,
   fun scheme hst account cont p1 p2 hs hh haNe ha hc h1 h2 =>
     parseFromContext_uri scheme hst account cont p1 p2 hs hh haNe ha hc h1 h2,
   rfl⟩

/-- Witness for C7: "a/b/c" gives container "a" and name "b/c", and the
Azurite-style URI "https://h/devstoreaccount1/cont/d1/f" gives container
"cont" and name "d1/f". -/
theorem C7_witness :
    parseFromContext { blobTrigger := some ['a', '/', 'b', '/', 'c'], uri := none }
        = { container := ['a'], name := ['b', '/', 'c'] }
    ∧ parseFromContext
        { blobTrigger := none, uri := some "https://h/devstoreaccount1/cont/d1/f".toList }
        = { container := "cont".toList, name := "d1/f".toList } :=
  ⟨C7_extraction_contract.1 ['a'] ['b', '/', 'c'] none (by decide),
   C7_extraction_contract.2.1 "https".toList ['h'] "devstoreaccount1".toList
     "cont".toList ['d', '1'] ['f'] (by decide) (by decide) (by decide) (by decide)
     (by decide) (by decide) (by decide)⟩

/-- C10: a non-empty slash-free combined descriptor is ignored entirely:
extraction behaves exactly as if the descriptor were absent, falling back
to the URI (or to empty values), never treating the whole descriptor as
a container with empty name. -/
theorem C10_slashless_descriptor_ignored (bt : List Char) (u : Option (List Char))
    (_hne : bt ≠ []) (hns : '/' ∉ bt) :
    parseFromContext { blobTrigger := some bt, uri := u }
      = parseFromContext { blobTrigger := none, uri := u } := by
  simp only [parseFromContext, Option.getD_some, Option.getD_none]
  rw [if_neg (show ¬(bt ≠ [] ∧ '/' ∈ bt) by simp [hns]),
    if_neg (show ¬(([] : List Char) ≠ [] ∧ '/' ∈ ([] : List Char)) by simp)]

/-- Witness for C10: descriptor "abc" with an Azurite URI present
behaves exactly as the descriptor-free metadata. -/
theorem C10_witness :
    parseFromContext
        { blobTrigger := some ['a', 'b', 'c'],
          uri := some "https://h/acc/cont/n".toList }
      = parseFromContext
        { blobTrigger := none, uri := some "https://h/acc/cont/n".toList } :=
  C10_slashless_descriptor_ignored ['a', 'b', 'c']
    (some "https://h/acc/cont/n".toList) (by decide) (by decide)

/-- C8: the payload size is 0 for an absent payload, the byte length for
a string or binary payload, the byte length of the JSON serialization
for any other structured payload, and 0 when serialization fails. -/
theorem C8_size_contract :
    getBlobSize JsValue.null = 0
    ∧ (∀ s : String, getBlobSize (JsValue.str s) = s.utf8ByteSize)
    ∧ (∀ n : Nat, getBlobSize (JsValue.bytes n) = n)
    ∧ (∀ j : Json, getBlobSize (JsValue.json j) = (stringify j).utf8ByteSize)
    ∧ getBlobSize JsValue.unserializable = 0 :=
  ⟨rfl, fun _ => rfl, fun _ => rfl, fun _ => rfl, rfl⟩

/-- C9: when the engine returns a terminal non-2xx response, the handler
raises "Downstream call failed with (status)" if the fail-on-non-2xx
flag is set, and returns normally if it is not. -/
theorem C9_fail_on_non_2xx_policy (url : String) (p : RetryPolicy)
    (o : Nat → AttemptOutcome) (j : Nat → Nat) (md : TriggerMetadata)
    (blob : JsValue) (s : Nat) (hurl : url ≠ "")
    (hres : (postWithRetry p o j).result = Except.ok s)
    (hok : respOk s = false) :
    BlobWatcher { downstreamUrl := url, failOnNon2xx := true, policy := p } o j md blob
        = Except.error ("Downstream call failed with " ++ toString s)
    ∧ BlobWatcher { downstreamUrl := url, failOnNon2xx := false, policy := p } o j md blob
        = Except.ok () := by
  constructor
  · simp only [BlobWatcher]
    rw [if_neg hurl, hres]
    simp [hok]
  · simp only [BlobWatcher]
    rw [if_neg hurl, hres]
    simp

/-- Witness for C9: default policy, constant 503 downstream; with the
flag set the invocation fails with "Downstream call failed with 503",
with the flag clear it completes normally. -/
theorem C9_witness :
    BlobWatcher
        { downstreamUrl := "http://downstream", failOnNon2xx := true,
          policy := defaultPolicy }
        (fun _ => AttemptOutcome.resp 503) (fun _ => 0)
        { blobTrigger := none, uri := none } JsValue.null
        = Except.error ("Downstream call failed with " ++ toString 503)
    ∧ BlobWatcher
        { downstreamUrl := "http://downstream", failOnNon2xx := false,
          policy := defaultPolicy }
        (fun _ => AttemptOutcome.resp 503) (fun _ => 0)
        { blobTrigger := none, uri := none } JsValue.null
        = Except.ok () :=
  C9_fail_on_non_2xx_policy "http://downstream" defaultPolicy
    (fun _ => AttemptOutcome.resp 503) (fun _ => 0)
    { blobTrigger := none, uri := none } JsValue.null 503
    (by decide) rfl (by decide)

end AzBlob
